import Mathlib

/-!
Verification development for the PdfExcelXlator repository: a shallow
embedding in Lean 4 of the Python modules `pdf_processor.py`,
`data_sanitizer.py` and `excel_converter.py`, together with theorems
settling the specification's claims about them.

Conventions of the embedding:
* Python byte strings are `List Nat` (one entry per byte).
* Python `str` is Lean `String`; character-class predicates model the
  ASCII fragment of Python's Unicode-aware `\w`, `\s`, `str.isupper`,
  `str.strip` — all inputs appearing in theorems are ASCII, where the
  two semantics agree.
* The external pdfplumber parser is an oracle parameter: a function from
  the raw bytes to the per-page results it would report.
* Python exceptions become `Except`/structured error values.
-/

set_option maxRecDepth 100000

deriving instance DecidableEq for Except

namespace PdfExcelXlator

/-! ## Character classes (ASCII fragment of Python `re` semantics) -/

/-- Word characters for the regex `\b` assertion (ASCII fragment of Python `\w`). -/
def isWordChar (c : Char) : Bool := c.isAlpha || c.isDigit || c == '_'

/-- Whitespace characters (ASCII fragment of Python `\s`). -/
def isSpaceChar (c : Char) : Bool :=
  c == ' ' || c == '\t' || c == '\n' || c == '\r' || c == '\x0b' || c == '\x0c'

/-- The class `[-.\s]` used by the phone pattern. -/
def isPhoneSep (c : Char) : Bool := c == '-' || c == '.' || isSpaceChar c

/-- The class `[-\s]` used by the credit-card pattern. -/
def isCardSep (c : Char) : Bool := c == '-' || isSpaceChar c

/-- The class `[A-Za-z0-9._%+-]` (local part of the email pattern). -/
def isEmailLocal (c : Char) : Bool :=
  c.isAlpha || c.isDigit || c == '.' || c == '_' || c == '%' || c == '+' || c == '-'

/-- The class `[A-Za-z0-9.-]` (domain part of the email pattern). -/
def isEmailDomain (c : Char) : Bool := c.isAlpha || c.isDigit || c == '.' || c == '-'

/-- The class `[A-Z|a-z]` (top-level-domain part of the email pattern;
the literal `|` inside the class is kept, faithfully to the source). -/
def isEmailTld (c : Char) : Bool := c.isUpper || c == '|' || c.isLower

/-- The class `[\dXx]` (check digit of the Chinese ID pattern). -/
def isDigitOrX (c : Char) : Bool := c.isDigit || c == 'X' || c == 'x'

/-! ## A small backtracking regex engine

Sufficient for the seven patterns of `DataSanitizer.__init__`: literals,
character classes, greedy counted repetition of a class, optional groups,
alternation, and the word-boundary assertion.  Matching is
leftmost-greedy with backtracking, like CPython's `re`. -/

inductive RE where
  | eps
  | lit (c : Char)
  | cls (p : Char → Bool)
  | seq (a b : RE)
  | alt (a b : RE)
  | opt (a : RE)
  | rep (p : Char → Bool) (lo : Nat) (hi : Option Nat)
  | wb

/-- Model: `\b` holds between the previous character (`none` at the start) and
the head of the remaining input. -/
def boundaryAt (prev : Option Char) (s : List Char) : Bool :=
  (match prev with | some c => isWordChar c | none => false) !=
    (match s with | c :: _ => isWordChar c | [] => false)

/-- Length of the maximal leading run of characters satisfying `p`. -/
def classRun (p : Char → Bool) : List Char → Nat
  | [] => 0
  | c :: cs => if p c then classRun p cs + 1 else 0

/-- Greedy backtracking over a class repetition: try consuming `k` characters,
then `k - 1`, …, down to `lo`.  `cont` receives the new previous character and
the remaining input; the engine's overall result is the previous character and
remaining input at the end of a successful total match. -/
def repTry (lo : Nat) (prev : Option Char) (s : List Char)
    (cont : Option Char → List Char → Option (Option Char × List Char)) :
    Nat → Option (Option Char × List Char)
  | 0 => if lo == 0 then cont prev s else none
  | Nat.succ k =>
      (if lo ≤ k + 1 then cont (s.get? k) (s.drop (k + 1)) else none).orElse
        (fun _ => repTry lo prev s cont k)

/-- Backtracking matcher in continuation-passing style.  `matchRE r prev s cont`
attempts to match `r` at the start of `s` (with `prev` the character just
before `s`, for `\b`), and on success runs `cont` on the rest. -/
def matchRE : RE → Option Char → List Char →
    (Option Char → List Char → Option (Option Char × List Char)) →
    Option (Option Char × List Char)
  | .eps, prev, s, cont => cont prev s
  | .lit c, _, s, cont =>
      match s with
      | [] => none
      | x :: xs => if x == c then cont (some x) xs else none
  | .cls p, _, s, cont =>
      match s with
      | [] => none
      | x :: xs => if p x then cont (some x) xs else none
  | .seq a b, prev, s, cont =>
      matchRE a prev s (fun p2 s2 => matchRE b p2 s2 cont)
  | .alt a b, prev, s, cont =>
      (matchRE a prev s cont).orElse (fun _ => matchRE b prev s cont)
  | .opt a, prev, s, cont =>
      (matchRE a prev s cont).orElse (fun _ => cont prev s)
  | .rep p lo hi, prev, s, cont =>
      let n := match hi with
        | some h => min (classRun p s) h
        | none => classRun p s
      repTry lo prev s cont n
  | .wb, prev, s, cont =>
      if boundaryAt prev s then cont prev s else none

/-- One scanning pass of `re.sub`: at each position try a match; on success
emit the replacement and resume after the match (matching always against the
original text, as CPython does), otherwise copy one character.  `fuel` is an
upper bound on the number of steps (`length + 1` suffices). -/
def subScan (re : RE) (repl : List Char) : Nat → Option Char → List Char → List Char
  | 0, _, s => s
  | Nat.succ fuel, prev, s =>
      match matchRE re prev s (fun p2 s2 => some (p2, s2)) with
      | some (p2, rest) =>
          if rest.length == s.length then
            match s with
            | [] => repl
            | c :: cs => repl ++ c :: subScan re repl fuel (some c) cs
          else repl ++ subScan re repl fuel p2 rest
      | none =>
          match s with
          | [] => []
          | c :: cs => c :: subScan re repl fuel (some c) cs

/-- Model: `pattern.sub(repl, s)` for the patterns of this embedding. -/
def reSub (re : RE) (repl : String) (s : String) : String :=
  ⟨subScan re repl.data (s.data.length + 1) none s.data⟩

/-- Right-nested sequencing of a pattern list. -/
def reSeq (l : List RE) : RE := l.foldr RE.seq RE.eps

/-! ## The seven sanitizer patterns (`DataSanitizer.__init__`) -/

/-- Model: `\b[A-Za-z0-9._%+-]+@[A-Za-z0-9.-]+\.[A-Z|a-z]{2,}\b` -/
def email_pattern : RE := reSeq
  [.wb, .rep isEmailLocal 1 none, .lit '@', .rep isEmailDomain 1 none,
   .lit '.', .rep isEmailTld 2 none, .wb]

/-- Model: `(\+?\d{1,3}[-.\s]?)?\(?\d{3}\)?[-.\s]?\d{3}[-.\s]?\d{4}` -/
def phone_pattern : RE := reSeq
  [.opt (reSeq [.opt (.lit '+'), .rep Char.isDigit 1 (some 3), .opt (.cls isPhoneSep)]),
   .opt (.lit '('), .rep Char.isDigit 3 (some 3), .opt (.lit ')'),
   .opt (.cls isPhoneSep), .rep Char.isDigit 3 (some 3),
   .opt (.cls isPhoneSep), .rep Char.isDigit 4 (some 4)]

/-- Model: `\b\d{3}-\d{2}-\d{4}\b` -/
def ssn_pattern : RE := reSeq
  [.wb, .rep Char.isDigit 3 (some 3), .lit '-', .rep Char.isDigit 2 (some 2),
   .lit '-', .rep Char.isDigit 4 (some 4), .wb]

/-- Model: `\b\d{4}[-\s]?\d{4}[-\s]?\d{4}[-\s]?\d{4}\b` -/
def credit_card_pattern : RE := reSeq
  [.wb, .rep Char.isDigit 4 (some 4), .opt (.cls isCardSep),
   .rep Char.isDigit 4 (some 4), .opt (.cls isCardSep),
   .rep Char.isDigit 4 (some 4), .opt (.cls isCardSep),
   .rep Char.isDigit 4 (some 4), .wb]

/-- Model: `\b\d{6,12}\b` -/
def id_number_pattern : RE := reSeq [.wb, .rep Char.isDigit 6 (some 12), .wb]

/-- Model: `\b\d{4,}\b` -/
def numeric_sequences : RE := reSeq [.wb, .rep Char.isDigit 4 none, .wb]

/-- Model: `\b\d{15}|\d{17}[\dXx]\b` — the alternation binds the whole pattern,
exactly as CPython parses it: `(\b\d{15})|(\d{17}[\dXx]\b)`. -/
def chinese_id_pattern : RE :=
  .alt (reSeq [.wb, .rep Char.isDigit 15 (some 15)])
       (reSeq [.rep Char.isDigit 17 (some 17), .cls isDigitOrX, .wb])

/-! ## `DataSanitizer.sanitize_text` -/

/-- Model: `DataSanitizer.sanitize_text` (data_sanitizer.py lines 20–61) on a
string argument: an empty string is returned as-is by the leading guard;
otherwise the substitutions run in source order, gated by the two flags. -/
def sanitize_text (text : String) (basic_sanitization : Bool)
    (redact_numbers : Bool) : String :=
  if text.isEmpty then text
  else
    let s := text
    let s := if basic_sanitization then
        let s := reSub email_pattern "[EMAIL_REDACTED]" s
        let s := reSub phone_pattern "[PHONE_REDACTED]" s
        let s := reSub ssn_pattern "[SSN_REDACTED]" s
        let s := reSub credit_card_pattern "[CARD_REDACTED]" s
        let s := reSub chinese_id_pattern "[ID_REDACTED]" s
        reSub id_number_pattern "[ID_REDACTED]" s
      else s
    if redact_numbers then reSub numeric_sequences "[NUMBER_REDACTED]" s else s

/-! ## Python string helpers (ASCII fragment) -/

/-- Model: `str.strip()`: drop ASCII whitespace from both ends. -/
def pyStrip (s : String) : String :=
  ⟨((s.data.dropWhile isSpaceChar).reverse.dropWhile isSpaceChar).reverse⟩

/-- One pass of `re.sub(r"\s+", " ", ·)`: squeeze whitespace runs to a single
space.  The Boolean records whether the previous character was whitespace. -/
def squeezeWs : Bool → List Char → List Char
  | _, [] => []
  | prevSpace, c :: cs =>
      if isSpaceChar c then
        if prevSpace then squeezeWs true cs else ' ' :: squeezeWs true cs
      else c :: squeezeWs false cs

/-- Model: `re.sub(r"\s+", " ", t).strip()` as used by `extract_text` when
formatting preservation is off. -/
def collapseWhitespace (t : String) : String := pyStrip ⟨squeezeWs false t.data⟩

/-- Model: `line[0].isupper()` on a nonempty string (`false` on the empty string,
which the source never queries). -/
def headIsUpper (l : String) : Bool :=
  match l.data with
  | [] => false
  | c :: _ => c.isUpper

/-- Model: `str.split()` with no separator: whitespace-run tokens, no empties. -/
def wsTokens : List Char → List Char → List String
  | [], acc => if acc.isEmpty then [] else [⟨acc.reverse⟩]
  | c :: cs, acc =>
      if isSpaceChar c then
        if acc.isEmpty then wsTokens cs [] else ⟨acc.reverse⟩ :: wsTokens cs []
      else wsTokens cs (c :: acc)

/-- Model: `str.split()` (no argument) on a string. -/
def pySplitWs (s : String) : List String := wsTokens s.data []

/-- Worker for `str.split(sep)` with a one-character separator: `acc` holds
the current piece, reversed. -/
def pySplitChGo (sep : Char) : List Char → List Char → List String
  | [], acc => [⟨acc.reverse⟩]
  | c :: cs, acc =>
      if c == sep then ⟨acc.reverse⟩ :: pySplitChGo sep cs []
      else pySplitChGo sep cs (c :: acc)

/-- Model: `str.split(sep)` for a one-character separator (the source only splits
on `'\n'`, `'\t'` and `'|'`): empty pieces are kept, `"".split(sep)` is
`[""]`. -/
def pySplitOnChar (sep : Char) (s : String) : List String :=
  pySplitChGo sep s.data []

/-- Substring test (`pat in s` for Python strings / bytes). -/
def isFrontOf [BEq α] : List α → List α → Bool
  | [], _ => true
  | _ :: _, [] => false
  | a :: as, b :: bs => a == b && isFrontOf as bs

/-- Model: `pat in s`: `pat` occurs somewhere inside `s`. -/
def listHasSub [BEq α] (s pat : List α) : Bool :=
  match s with
  | [] => pat.isEmpty
  | a :: rest => isFrontOf pat (a :: rest) || listHasSub rest pat

/-- Model: `pat in s` on strings. -/
def strHasSub (s pat : String) : Bool := listHasSub s.data pat.data

/-! ## `PDFProcessor._validate_pdf_security` (pdf_processor.py lines 15–40) -/

/-- A PDF byte string: one `Nat` per byte. -/
abbrev Bytes := List Nat

/-- Bytes of an ASCII string literal. -/
def asciiBytes (s : String) : Bytes := s.data.map Char.toNat

/-- Model: `self.max_file_size = 50 * 1024 * 1024`. -/
def max_file_size : Nat := 50 * 1024 * 1024

/-- Model: `b"%PDF-"`, the header signature checked by `startswith`. -/
def pdfHeaderBytes : Bytes := asciiBytes "%PDF-"

/-- Model: `b"%%EOF"`, the end-of-file marker checked by `in`. -/
def eofMarkerBytes : Bytes := asciiBytes "%%EOF"

/-- The three `ValueError`s of `_validate_pdf_security`, as structured values:
the size error carries the actual and maximum byte counts that the source
interpolates into its message. -/
inductive ValidationError where
  | fileTooLarge (actual maxAllowed : Nat)
  | missingHeader
  | missingEOF
deriving DecidableEq, Repr

/-- Model: `PDFProcessor._validate_pdf_security`: size check, then header check,
then end-of-file-marker check; the first failing check raises. -/
def validate_pdf_security (pdf_bytes : Bytes) : Except ValidationError Unit :=
  if max_file_size < pdf_bytes.length then
    .error (.fileTooLarge pdf_bytes.length max_file_size)
  else if !isFrontOf pdfHeaderBytes pdf_bytes then
    .error .missingHeader
  else if !listHasSub pdf_bytes eofMarkerBytes then
    .error .missingEOF
  else .ok ()

/-! ## `PDFProcessor.extract_text` (pdf_processor.py lines 54–133) -/

/-- Oracle for pdfplumber text extraction: maps the raw bytes to either an
open failure or the list of `page.extract_text()` results, one per page
(`none` where pdfplumber returns `None`). -/
abbrev TextParser := Bytes → Except String (List (Option String))

/-- Oracle for pdfplumber table extraction: maps the raw bytes to either an
open failure or, per page, the list of raw tables (`page.extract_tables()`),
each raw table a list of rows of `Option String` cells. -/
abbrev RawTable := List (List (Option String))

abbrev TableParser := Bytes → Except String (List (List RawTable))

/-- The wrapped errors raised by `extract_text` / `extract_tables`
(every cause is re-raised as `Exception("Failed to extract … : " + cause)`;
the constructor records which cause it was). -/
inductive ExtractError where
  | validation (e : ValidationError)
  | parserFailure (msg : String)
  | nameErrorNoPages
  | noTextExtracted
  | pandasError (msg : String)
deriving DecidableEq, Repr

/-- State of the block-merging loop of `extract_text`: the accumulated
`merged_lines` and the `current_block`. -/
abbrev MergeState := List String × String

/-- One iteration of the `for line in lines` loop of the block-merging
branch (pdf_processor.py lines 94–106). -/
def mergeStep (st : MergeState) (rawLine : String) : MergeState :=
  let line := pyStrip rawLine
  let merged := st.1
  let current_block := st.2
  if !line.isEmpty then
    if !current_block.isEmpty && !headIsUpper line && current_block.length < 100 then
      (merged, current_block ++ " " ++ line)
    else
      ((if !current_block.isEmpty then merged ++ [current_block] else merged), line)
  else
    ((if !current_block.isEmpty then merged ++ [current_block] else merged), "")

/-- The whole block-merging branch (`merge_text_blocks`): split into lines,
run the loop, flush the final block, re-join with newlines. -/
def merge_text_blocks_fn (page_text : String) : String :=
  let lines := pySplitOnChar '\n' page_text
  let st := lines.foldl mergeStep ([], "")
  let merged_lines := if !st.2.isEmpty then st.1 ++ [st.2] else st.1
  String.intercalate "\n" merged_lines

/-- The cleaning applied to a truthy page text inside `extract_text`:
optional whitespace collapapse, then optional block merging. -/
def processPageText (t : String) (preserve_formatting merge_text_blocks : Bool) : String :=
  let t := if !preserve_formatting then collapseWhitespace t else t
  if merge_text_blocks then merge_text_blocks_fn t else t

/-- Result of `extract_text`: a single joined string, or one string per
entry of `extracted_text` when `split_by_pages` is set. -/
inductive TextOut where
  | joined (s : String)
  | pages (l : List String)
deriving DecidableEq, Repr

/-- Model: `"\n\n--- Page Break ---\n\n"`, the join separator. -/
def pageBreakSep : String := "\n\n--- Page Break ---\n\n"

/-- Model: `PDFProcessor.extract_text`.  Faithful to the source's indentation: the
body of `for page_num, page in enumerate(pdf.pages)` is only
`page_text = page.extract_text()`, so after the loop `page_text` holds the
*last* page's text (a `NameError` if there are no pages), and the
`if page_text:` block runs exactly once, appending a single entry to
`extracted_text`. -/
def extract_text (parse : TextParser) (pdf_bytes : Bytes)
    (preserve_formatting split_by_pages merge_text_blocks : Bool) :
    Except ExtractError TextOut :=
  match validate_pdf_security pdf_bytes with
  | .error e => .error (.validation e)
  | .ok _ =>
    match parse pdf_bytes with
    | .error m => .error (.parserFailure m)
    | .ok pageTexts =>
      match pageTexts.getLast? with
      | none => .error .nameErrorNoPages
      | some page_text =>
        let extracted_text :=
          match page_text with
          | some t =>
              if t.isEmpty then [""]
              else [processPageText t preserve_formatting merge_text_blocks]
          | none => [""]
        if extracted_text.isEmpty then .error .noTextExtracted
        else if split_by_pages then .ok (.pages extracted_text)
        else .ok (.joined (String.intercalate pageBreakSep extracted_text))

/-! ## `PDFProcessor.extract_tables` (pdf_processor.py lines 135–266)

The pandas values flowing through the primary path are modelled by `PCell`:
a pdfplumber cell is `None` or a string; rows shorter than the widest data
row are padded by the `pd.DataFrame` constructor with NaN.  `str()` renders
the three cases as `"None"`, `"nan"`, and the string itself. -/

inductive PCell where
  | pnone
  | pnan
  | pstr (v : String)
deriving DecidableEq, Repr

/-- Model: `str(cell)` on a `PCell`. -/
def PCell.toStr : PCell → String
  | .pnone => "None"
  | .pnan => "nan"
  | .pstr v => v

/-- Whether pandas counts the value as missing (`dropna`). -/
def PCell.isNa : PCell → Bool
  | .pnone => true
  | .pnan => true
  | .pstr _ => false

/-- A cleaned table as produced by `extract_tables`: all cells are strings,
tagged with the `attrs` metadata `page` and `table`. -/
structure PTable where
  header : List String
  rows : List (List String)
  page : Nat
  tableIdx : Nat
deriving DecidableEq, Repr

/-- Model: `pd.DataFrame(data, columns=header)` on a list of lists: with empty data
the frame has no rows; otherwise the column count must equal the widest row
(else pandas raises `ValueError`), and shorter rows are padded with NaN. -/
def pdDataFrameRows (data : List (List (Option String))) (ncols : Nat) :
    Except String (List (List PCell)) :=
  if data.isEmpty then .ok []
  else
    let m := data.foldl (fun acc r => max acc r.length) 0
    if ncols != m then .error "pandas: columns passed do not match data width"
    else .ok (data.map (fun r =>
      r.map (fun c => match c with | some v => PCell.pstr v | none => PCell.pnone)
        ++ List.replicate (m - r.length) PCell.pnan))

/-- Synthetic column names `Column_1 … Column_n` used when the first raw row
is empty. -/
def synthColumns (n : Nat) : List (Option String) :=
  (List.range n).map (fun i => some ("Column_" ++ toString (i + 1)))

/-- Column-name cleaning (pdf_processor.py lines 175–177):
`str(col).strip()` for present names, `Column_{i+1}` for `None`. -/
def cleanColumns (header : List (Option String)) : List String :=
  header.enum.map (fun ic =>
    match ic.2 with
    | some v => pyStrip v
    | none => "Column_" ++ toString (ic.1 + 1))

/-- Cell-value cleaning (pdf_processor.py lines 180–184): `astype(str)`,
`str.strip()`, then `replace('None', '')`. -/
def cleanCell (c : PCell) : String :=
  let s := pyStrip c.toStr
  if s == "None" then "" else s

/-- The header row chosen for a raw table (line 163): the first raw row, or
synthesized `Column_N` names when it is empty. -/
def rawHeader (t0 : List (Option String)) (rest : RawTable) : List (Option String) :=
  if t0.isEmpty then
    synthColumns (match rest.head? with | some t1 => t1.length | none => 0)
  else t0

/-- The row-cleaning pipeline (lines 168–184): optional removal of all-na
rows and of all-empty-string rows, then per-cell stringify/strip/replace. -/
def cleanedRows (remove_empty_rows : Bool) (rows0 : List (List PCell)) :
    List (List String) :=
  let rows1 :=
    if remove_empty_rows then
      (rows0.filter (fun r => !r.all PCell.isNa)).filter
        (fun r => !r.all (fun c => c.toStr == ""))
    else rows0
  rows1.map (fun r => r.map cleanCell)

/-- Processing of one raw table of the primary path (pdf_processor.py
lines 160–191): `.ok none` when the table is skipped, `.ok (some t)` when
`t` is appended to `all_tables`, `.error` when pandas raises. -/
def processRawTable (page_num table_num : Nat) (remove_empty_rows : Bool)
    (table : RawTable) : Except String (Option PTable) :=
  match table with
  | [] => .ok none
  | t0 :: rest =>
    match pdDataFrameRows rest (rawHeader t0 rest).length with
    | .error e => .error e
    | .ok rows0 =>
      if (cleanedRows remove_empty_rows rows0).isEmpty ||
          (cleanColumns (rawHeader t0 rest)).isEmpty then .ok none
      else .ok (some ⟨cleanColumns (rawHeader t0 rest),
        cleanedRows remove_empty_rows rows0, page_num + 1, table_num + 1⟩)

/-- The `for table_num, table in enumerate(tables)` loop: tables are
processed in order, pandas errors propagate, accepted tables accumulate. -/
def processTables (page_num : Nat) (remove_empty_rows : Bool) :
    List RawTable → Nat → Except String (List PTable)
  | [], _ => .ok []
  | t :: ts, table_num =>
    match processRawTable page_num table_num remove_empty_rows t with
    | .error e => .error e
    | .ok none => processTables page_num remove_empty_rows ts (table_num + 1)
    | .ok (some pt) =>
      match processTables page_num remove_empty_rows ts (table_num + 1) with
      | .error e => .error e
      | .ok rest => .ok (pt :: rest)

/-! ### `PDFProcessor._extract_tables_alternative` (lines 208–266) -/

/-- The candidate filter (lines 223–227): at least two whitespace-separated
tokens and one of the four delimiter hints — tab, two spaces, pipe, comma —
occurring as a substring. -/
def lineIsCandidate (line : String) : Bool :=
  decide (2 ≤ (pySplitWs line).length) &&
    (strHasSub line "\t" || strHasSub line "  " || strHasSub line "|" ||
     strHasSub line ",")

/-- Model: `re.split(r"\s{2,}", ·)`: split on maximal whitespace runs of length at
least two; a single whitespace character stays inside its token.  `acc` is
the current token (reversed), `ws` the pending whitespace run (reversed). -/
def msSplitGo : List Char → List Char → List Char → List String
  | [], acc, ws =>
      if 2 ≤ ws.length then [⟨acc.reverse⟩, ""] else [⟨(ws ++ acc).reverse⟩]
  | c :: cs, acc, ws =>
      if isSpaceChar c then msSplitGo cs acc (c :: ws)
      else if 2 ≤ ws.length then ⟨acc.reverse⟩ :: msSplitGo cs [c] []
      else msSplitGo cs (c :: (ws ++ acc)) []

/-- Model: `re.split(r"\s{2,}", line)`. -/
def multiSpaceSplit (line : String) : List String := msSplitGo line.data [] []

/-- The per-line splitting of the fallback parser (lines 235–241): tab split
if a tab occurs, else pipe split (stripping cells, dropping empties), else
multi-space split.  A comma is never used as a split delimiter. -/
def splitLine (line : String) : List String :=
  if strHasSub line "\t" then pySplitOnChar '\t' line
  else if strHasSub line "|" then
    ((pySplitOnChar '|' line).map pyStrip).filter (fun c => !c.isEmpty)
  else multiSpaceSplit line

/-- Rows collected from the candidate lines (lines 233–244): a split result
is kept only when it has more than one cell. -/
def fallbackRows (potential_table_lines : List String) : List (List String) :=
  potential_table_lines.foldl (fun rows line =>
    let row := splitLine line
    if !row.isEmpty && 1 < row.length then rows ++ [row] else rows) []

/-- Padding a row to `max_cols` with empty strings (lines 248–253). -/
def padRow (max_cols : Nat) (r : List String) : List String :=
  r ++ List.replicate (max_cols - r.length) ""

/-- The stripped candidate lines of a page (lines 220–227). -/
def candidateLines (page_text : String) : List String :=
  ((pySplitOnChar '\n' page_text).map pyStrip).filter lineIsCandidate

/-- The raw (unpadded) rows the fallback parser derives from a page text. -/
def candidateRows (page_text : String) : List (List String) :=
  fallbackRows (candidateLines page_text)

/-- Model: `max_cols`, the length of the longest row of a row list (0 when empty). -/
def longestRowLen (rs : List (List String)) : Nat :=
  rs.foldl (fun m r => max m r.length) 0

/-- Parsing of one page's text by the fallback extractor: the header and
data rows of the candidate table, or `none` when no table is built. -/
def fallbackParsePage (page_text : String) : Option (List String × List (List String)) :=
  if 2 ≤ (candidateLines page_text).length then
    if !(candidateRows page_text).isEmpty && 1 < (candidateRows page_text).length then
      match (candidateRows page_text).map
          (padRow (longestRowLen (candidateRows page_text))) with
      | [] => none
      | h :: tl => some (h, tl)
    else none
  else none

/-- Model: `PDFProcessor._extract_tables_alternative`: re-extract the page texts
(page-split, formatting preserved), scan each for a candidate table; any
failure of the text extraction yields `[]`. -/
def extract_tables_alternative (parseText : TextParser) (pdf_bytes : Bytes) :
    List PTable :=
  match extract_text parseText pdf_bytes true true false with
  | .error _ => []
  | .ok (.joined _) => []
  | .ok (.pages text_data) =>
      (text_data.enum).foldl (fun tables pagePair =>
        match fallbackParsePage pagePair.2 with
        | some (h, rows) => tables ++ [⟨h, rows, pagePair.1 + 1, 1⟩]
        | none => tables) []

/-- Model: `PDFProcessor.extract_tables`.  Faithful to the source's indentation:
the page loop's body is only `tables = page.extract_tables()`, so the
`for table_num, table in enumerate(tables)` loop runs once, over the *last*
page's raw tables (a `NameError` if there are no pages). -/
def extract_tables (parseTables : TableParser) (parseText : TextParser)
    (pdf_bytes : Bytes) (remove_empty_rows : Bool) :
    Except ExtractError (List PTable) :=
  match validate_pdf_security pdf_bytes with
  | .error e => .error (.validation e)
  | .ok _ =>
    match parseTables pdf_bytes with
    | .error m => .error (.parserFailure m)
    | .ok pageTables =>
      match pageTables.getLast? with
      | none => .error .nameErrorNoPages
      | some tables =>
        let page_num := pageTables.length - 1
        match processTables page_num remove_empty_rows tables 0 with
        | .error m => .error (.pandasError m)
        | .ok all_tables =>
          if all_tables.isEmpty then
            .ok (extract_tables_alternative parseText pdf_bytes)
          else .ok all_tables

/-! ## `ExcelConverter` (excel_converter.py)

Sheets are modelled as a name plus the written cells in write order,
addressed `(row, column)` with `A = 1`; cell styling, fonts and column
widths are presentation details outside every claim and outside the spec's
declared scope, and are not modelled.  The wall-clock timestamp written by
the sheet builders is passed in as the `now` argument. -/

structure Sheet where
  name : String
  cells : List (Nat × Nat × String)
deriving DecidableEq, Repr

abbrev Workbook := List Sheet

/-- An element of a Python list handed to the converter: a page string or a
DataFrame. -/
inductive PyElem where
  | estr (s : String)
  | etable (t : PTable)
deriving DecidableEq, Repr

/-- The dynamic value `convert_to_excel` receives
(`Union[str, List[pd.DataFrame], Dict]`, with list elements in practice
strings or DataFrames, and the dict carrying `"text"` / `"tables"`). -/
inductive PyData where
  | pstr (s : String)
  | plist (l : List PyElem)
  | pdict (textVal : Option PyData) (tablesVal : Option PyData)

/-- Python truthiness of such a value (`if data.get("text"):` etc.). -/
def pyTruthy : PyData → Bool
  | .pstr s => !s.isEmpty
  | .plist l => !l.isEmpty
  | .pdict t tb => t.isSome || tb.isSome

/-- Rows written for one paragraph list: each stripped-nonempty paragraph
occupies one cell in column A (excel_converter.py lines 101–107 and
113–119).  Returns the written cells and the next free row. -/
def paragraphCells (paragraphs : List String) (row_num : Nat) :
    List (Nat × Nat × String) × Nat :=
  paragraphs.foldl (fun acc paragraph =>
    if !(pyStrip paragraph).isEmpty then
      (acc.1 ++ [(acc.2, 1, pyStrip paragraph)], acc.2 + 1)
    else acc) ([], row_num)

/-- The per-page body of `_add_text_sheet` for list input: a `Page N:` label
row, the page's paragraphs, and one blank row between pages. -/
def textPagesCells : List PyElem → Nat → Nat → Except String (List (Nat × Nat × String))
  | [], _, _ => .ok []
  | .etable _ :: _, _, _ =>
      .error "AttributeError: 'DataFrame' object has no attribute 'split'"
  | .estr page_text :: rest, i, row_num =>
      let label := (row_num, 1, "Page " ++ toString (i + 1) ++ ":")
      let body := paragraphCells (pySplitOnChar '\n' page_text) (row_num + 1)
      match textPagesCells rest (i + 1) (body.2 + 1) with
      | .error e => .error e
      | .ok tail => .ok (label :: body.1 ++ tail)

/-- Model: `ExcelConverter._add_text_sheet` (lines 82–126): title in A1, the body
from row 3 (single block or per-page), the timestamp in A2 written last.
Non-string, non-list data has no `.split` and raises. -/
def add_text_sheet (text_data : PyData) (filename now : String) :
    Except String Sheet :=
  let title := (1, 1, "Text Extracted from: " ++ filename)
  let stamp := (2, 1, "Extracted on: " ++ now)
  match text_data with
  | .plist l =>
      match textPagesCells l 0 3 with
      | .error e => .error e
      | .ok body => .ok ⟨"Extracted Text", title :: body ++ [stamp]⟩
  | .pstr s =>
      .ok ⟨"Extracted Text", title :: (paragraphCells (pySplitOnChar '\n' s) 3).1 ++ [stamp]⟩
  | .pdict _ _ =>
      .error "AttributeError: 'dict' object has no attribute 'split'"

/-- Excel sheet-name sanitization (line 141): strip `\ / * ? : [ ]`, then
truncate to 31 characters. -/
def sanitizeSheetName (s : String) : String :=
  ⟨(s.data.filter (fun c =>
      !(c == '\\' || c == '/' || c == '*' || c == '?' || c == ':' ||
        c == '[' || c == ']'))).take 31⟩

/-- Model: `ExcelConverter._add_summary_sheet` (lines 173–191). -/
def summarySheet (message filename now : String) : Sheet :=
  ⟨"Summary",
   [(1, 1, "PDF to Excel Conversion Summary"),
    (3, 1, "Original File: " ++ filename),
    (4, 1, "Conversion Date: " ++ now),
    (6, 1, "Status: " ++ message)]⟩

/-- Model: `ExcelConverter._add_error_sheet` (lines 193–215). -/
def errorSheet (error_message filename now : String) : Sheet :=
  ⟨"Error",
   [(1, 1, "Conversion Error"),
    (3, 1, "File: " ++ filename),
    (4, 1, "Error occurred at: " ++ now),
    (6, 1, "Error Details:"),
    (7, 1, error_message)]⟩

/-- The data grid written by `dataframe_to_rows(df, index=False, header=True)`
starting at `start_row`: the header row, then the data rows. -/
def tableGridCells (t : PTable) (start_row : Nat) : List (Nat × Nat × String) :=
  (([t.header] ++ t.rows).enum).foldl (fun acc rowPair =>
    acc ++ (rowPair.2.enum).map (fun cellPair =>
      (start_row + rowPair.1, cellPair.1 + 1, cellPair.2))) []

/-- One table sheet of `_add_table_sheets` (lines 134–171): the tables built
by `extract_tables` always carry a `page` attr, so the name is
`Table_<i+1>_Page_<p>` (sanitized) and the provenance row is written. -/
def tableSheet (i : Nat) (t : PTable) (filename : String) : Sheet :=
  ⟨sanitizeSheetName ("Table_" ++ toString (i + 1) ++ "_Page_" ++ toString t.page),
   [(1, 1, "Table " ++ toString (i + 1) ++ " from: " ++ filename),
    (2, 1, "Source: Page " ++ toString t.page)] ++ tableGridCells t 4⟩

/-- Model: `ExcelConverter._add_table_sheets` (lines 128–171): falsy input gets the
"No tables found in PDF" summary sheet; a list is iterated, each DataFrame
becoming one sheet; iterating a truthy non-list reaches `dataframe_to_rows`
on a non-DataFrame and raises. -/
def add_table_sheets (tables_data : PyData) (filename now : String) :
    Except String (List Sheet) :=
  if !pyTruthy tables_data then .ok [summarySheet "No tables found in PDF" filename now]
  else
    match tables_data with
    | .plist l =>
        (l.enum.foldl (fun acc ep =>
          match acc with
          | .error e => .error e
          | .ok sheets =>
            match ep.2 with
            | .etable t => .ok (sheets ++ [tableSheet ep.1 t filename])
            | .estr _ => .error "TypeError: value is not a DataFrame") (.ok []))
    | _ => .error "TypeError: value is not iterable as tables"

/-- The sheet-building phase of `convert_to_excel` (lines 42–56): dispatch on
the extraction method, with the dict/fallback handling of the combined
branch. -/
def buildSheets (data : PyData) (extraction_method filename now : String) :
    Except String (List Sheet) :=
  if extraction_method == "Text Extraction" then
    (add_text_sheet data filename now).map (fun s => [s])
  else if extraction_method == "Table Detection" then
    add_table_sheets data filename now
  else
    match data with
    | .pdict textVal tablesVal =>
        let textSheets : Except String (List Sheet) :=
          match textVal with
          | some v =>
              if pyTruthy v then (add_text_sheet v filename now).map (fun s => [s])
              else .ok []
          | none => .ok []
        match textSheets with
        | .error e => .error e
        | .ok ts =>
          match tablesVal with
          | some v =>
              if pyTruthy v then
                match add_table_sheets v filename now with
                | .error e => .error e
                | .ok tbs => .ok (ts ++ tbs)
              else .ok ts
          | none => .ok ts
    | other => (add_text_sheet other filename now).map (fun s => [s])

/-- Model: `ExcelConverter.convert_to_excel` (lines 23–80): build the sheets; if
none were added, add the "No data extracted" summary sheet; if anything
raised, discard all partial sheets and produce a single error sheet.  A
workbook value is returned on every path. -/
def convert_to_excel (data : PyData) (extraction_method filename now : String) :
    Workbook :=
  match buildSheets data extraction_method filename now with
  | .ok sheets =>
      if sheets.isEmpty then [summarySheet "No data extracted" filename now]
      else sheets
  | .error e => [errorSheet e filename now]

/-! ## `DataSanitizer.sanitize_dataframe` (data_sanitizer.py lines 63–89)

To express the frame condition "the input DataFrame object is not
modified", the function is embedded in object-state-passing style: it
returns the state of the caller's DataFrame object after the call together
with the returned DataFrame.  The source's only writes
(`sanitized_df[column] = …`) target `sanitized_df`, which is bound to
`df.copy()` — a distinct object — on the non-empty path, and the empty path
performs no writes at all. -/

inductive Dtype where
  | object
  | nonObject
deriving DecidableEq, Repr

structure DFColumn where
  name : String
  dtype : Dtype
  values : List String
deriving DecidableEq, Repr

structure DataFrame where
  cols : List DFColumn
deriving DecidableEq, Repr

/-- Model: `df.empty`: a frame with no columns or no rows. -/
def DataFrame.isEmptyDF (df : DataFrame) : Bool :=
  match df.cols with
  | [] => true
  | c :: _ => c.values.isEmpty

/-- Model: `df.copy()`: a fresh object with the same contents. -/
def DataFrame.copy (df : DataFrame) : DataFrame := ⟨df.cols⟩

/-- The column loop (lines 83–87): object-dtype columns get
`sanitize_text(str(x), …)` applied to every value, other columns are left
alone.  All writes land in the copied frame. -/
def sanitizeColumns (df : DataFrame) (basic_sanitization redact_numbers : Bool) :
    DataFrame :=
  ⟨df.cols.map (fun c =>
    if c.dtype == Dtype.object then
      { c with values := c.values.map (fun x => sanitize_text x basic_sanitization redact_numbers) }
    else c)⟩

/-- Model: `DataSanitizer.sanitize_dataframe` in object-state-passing style:
first component is the caller's object after the call, second the returned
frame.  The empty guard returns the input object itself; otherwise the
sanitization runs on `df.copy()`. -/
def sanitize_dataframe (df : DataFrame) (basic_sanitization redact_numbers : Bool) :
    DataFrame × DataFrame :=
  if df.isEmptyDF then (df, df)
  else
    let sanitized_df := df.copy
    let sanitized_df := sanitizeColumns sanitized_df basic_sanitization redact_numbers
    (df, sanitized_df)

/-! ## Spec-side formalizations used for refinement comparisons -/

/-- Spec-side model of the claimed block-merging rule, as the claim words it:
a non-blank line is appended to the current paragraph unless the accumulated
paragraph "already exceeds 100 characters" (strictly more than 100) or the
line starts with an uppercase letter; a blank line terminates the paragraph. -/
def specMergeStepClaimed (st : MergeState) (rawLine : String) : MergeState :=
  let line := pyStrip rawLine
  if line.isEmpty then
    ((if !st.2.isEmpty then st.1 ++ [st.2] else st.1), "")
  else if !st.2.isEmpty && !(100 < st.2.length) && !headIsUpper line then
    (st.1, st.2 ++ " " ++ line)
  else
    ((if !st.2.isEmpty then st.1 ++ [st.2] else st.1), line)

/-- The claimed merge rule lifted to a whole page text. -/
def specMergeBlocksClaimed (page_text : String) : String :=
  let lines := pySplitOnChar '\n' page_text
  let st := lines.foldl specMergeStepClaimed ([], "")
  let merged_lines := if !st.2.isEmpty then st.1 ++ [st.2] else st.1
  String.intercalate "\n" merged_lines

/-- Spec-side model of the amended block-merging rule: merging is blocked as
soon as the accumulated paragraph has reached 100 characters (length at
least 100), or when the next line starts with an uppercase letter; a blank
line terminates the paragraph. -/
def specMergeStepAmended (st : MergeState) (rawLine : String) : MergeState :=
  let line := pyStrip rawLine
  if line.isEmpty then
    ((if !st.2.isEmpty then st.1 ++ [st.2] else st.1), "")
  else if !st.2.isEmpty && st.2.length < 100 && !headIsUpper line then
    (st.1, st.2 ++ " " ++ line)
  else
    ((if !st.2.isEmpty then st.1 ++ [st.2] else st.1), line)

/-- The amended merge rule lifted to a whole page text. -/
def specMergeBlocksAmended (page_text : String) : String :=
  let lines := pySplitOnChar '\n' page_text
  let st := lines.foldl specMergeStepAmended ([], "")
  let merged_lines := if !st.2.isEmpty then st.1 ++ [st.2] else st.1
  String.intercalate "\n" merged_lines

/-- The delimiters the fallback splitter actually uses, strongest first. -/
inductive Delim where
  | tab
  | pipe
  | multispace
deriving DecidableEq, Repr

/-- Spec-side model (amended): the strongest delimiter available in a line,
with priority tab > pipe > multi-space run; a comma is never a delimiter. -/
def strongestDelim (line : String) : Delim :=
  if strHasSub line "\t" then .tab
  else if strHasSub line "|" then .pipe
  else .multispace

/-- Spec-side model (amended): splitting a line by a chosen delimiter. -/
def splitByDelim (d : Delim) (line : String) : List String :=
  match d with
  | .tab => pySplitOnChar '\t' line
  | .pipe => ((pySplitOnChar '|' line).map pyStrip).filter (fun c => !c.isEmpty)
  | .multispace => multiSpaceSplit line

/-- Spec-side model (amended) of the fallback line splitting: split on the
strongest available delimiter. -/
def specSplitLineAmended (line : String) : List String :=
  splitByDelim (strongestDelim line) line

/-- The six placeholder tokens the sanitizer substitutes. -/
def placeholderTokens : List String :=
  ["[EMAIL_REDACTED]", "[PHONE_REDACTED]", "[SSN_REDACTED]",
   "[CARD_REDACTED]", "[ID_REDACTED]", "[NUMBER_REDACTED]"]

/-! ## Concrete fixtures used by counterexamples and witnesses -/

/-- A small well-formed PDF byte string (header and end-of-file marker). -/
def validPdfBytes : Bytes := asciiBytes "%PDF-1.4 hello %%EOF"

/-- A parser oracle for a two-page document whose pages extract to
`"PAGE ONE"` and `"PAGE TWO"`. -/
def twoPageParser : TextParser := fun _ => .ok [some "PAGE ONE", some "PAGE TWO"]

/-- A run of exactly 100 `a` characters. -/
def hundredA : String := ⟨List.replicate 100 'a'⟩

/-- A raw table whose second data row is one cell short of the header. -/
def shortRowRawTable : RawTable :=
  [[some "h1", some "h2"], [some "a", some "b"], [some "c"]]

/-! # Theorems on the claims -/

/-- Claim C9. `sanitize_text` with both flags off is the identity on strings:
the empty-string guard returns the argument itself and no substitution is
gated on. -/
theorem sanitize_text_no_flags_id (s : String) :
    sanitize_text s false false = s := by
  by_cases h : s.isEmpty <;> simp [sanitize_text, h]

/-- Claim C10. `sanitize_dataframe` never modifies the caller's DataFrame
object: in the object-state-passing embedding, the state of the input
object after the call equals its state before, for every frame and both
flag settings — every cell, column name, and the shape are unchanged. -/
theorem sanitize_dataframe_input_unmodified (df : DataFrame)
    (basic_sanitization redact_numbers : Bool) :
    (sanitize_dataframe df basic_sanitization redact_numbers).1 = df := by
  by_cases h : df.isEmptyDF <;> simp [sanitize_dataframe, h]

/-- Claim C1. (code bug). On a valid two-page document the dedented page loop
makes `extract_text` keep only the last page: with `split_by_pages` it
returns the one-element list `["PAGE TWO"]` — not a list whose length is
the page count 2 — and without it the joined output is `"PAGE TWO"` with no
page-break separator. -/
theorem extract_text_keeps_only_last_page :
    extract_text twoPageParser validPdfBytes true true false =
      .ok (.pages ["PAGE TWO"]) ∧
    extract_text twoPageParser validPdfBytes true true false ≠
      .ok (.pages ["PAGE ONE", "PAGE TWO"]) ∧
    extract_text twoPageParser validPdfBytes true false false =
      .ok (.joined "PAGE TWO") := by
  refine ⟨by decide, by decide, by decide⟩

/-- Claim C4. (counterexample). In "Text Extraction" mode with empty text
content, `convert_to_excel` does not produce a "Summary" sheet: the text
sheet builder unconditionally creates an "Extracted Text" sheet, so the
workbook's sheet names are `["Extracted Text"]`, not `["Summary"]`. -/
theorem convert_empty_text_mode_no_summary :
    (convert_to_excel (.pstr "") "Text Extraction" "f.pdf" "NOW").map Sheet.name
      = ["Extracted Text"] ∧
    (["Extracted Text"] : List String) ≠ ["Summary"] := by
  refine ⟨by decide, by decide⟩

/-- Claim C4. (amended). Exporting a result with zero tables and zero text
yields exactly one "Summary" sheet in "Table Detection" mode and in the
combined mode; in "Text Extraction" mode the workbook instead consists of
exactly one "Extracted Text" sheet. -/
theorem convert_empty_result_sheets (filename now : String) :
    (convert_to_excel (.plist []) "Table Detection" filename now).map Sheet.name
      = ["Summary"] ∧
    (convert_to_excel (.pdict (some (.pstr "")) (some (.plist [])))
        "Both Text and Tables" filename now).map Sheet.name = ["Summary"] ∧
    (convert_to_excel (.pstr "") "Text Extraction" filename now).map Sheet.name
      = ["Extracted Text"] := by
  refine ⟨rfl, rfl, rfl⟩

/-- Claim C3. When the precondition checks reject the byte string,
`extract_text` and `extract_tables` both fail with that validation error —
for *every* parser oracle, so the parser is never consulted — and the error
identifies the violated check, carrying the actual and maximum sizes for
the size check. -/
theorem validation_rejects_before_parsing (b : Bytes) (e : ValidationError)
    (h : validate_pdf_security b = .error e) :
    (∀ (p : TextParser) (pf sp mb : Bool),
        extract_text p b pf sp mb = .error (.validation e)) ∧
    (∀ (pt : TableParser) (px : TextParser) (rer : Bool),
        extract_tables pt px b rer = .error (.validation e)) ∧
    (max_file_size < b.length → e = .fileTooLarge b.length max_file_size) ∧
    (b.length ≤ max_file_size → isFrontOf pdfHeaderBytes b = false →
        e = .missingHeader) ∧
    (b.length ≤ max_file_size → isFrontOf pdfHeaderBytes b = true →
        listHasSub b eofMarkerBytes = false → e = .missingEOF) := by
  refine ⟨?_, ?_, ?_, ?_, ?_⟩
  · intro p pf sp mb
    unfold extract_text
    rw [h]
  · intro pt px rer
    unfold extract_tables
    rw [h]
  · intro hsize
    unfold validate_pdf_security at h
    rw [if_pos hsize] at h
    exact (Except.error.inj h).symm
  · intro hsize hpref
    unfold validate_pdf_security at h
    rw [if_neg (by omega), if_pos (by simp [hpref])] at h
    exact (Except.error.inj h).symm
  · intro hsize hpref heof
    unfold validate_pdf_security at h
    rw [if_neg (by omega), if_neg (by simp [hpref]), if_pos (by simp [heof])] at h
    exact (Except.error.inj h).symm

/-- Claim C3. (witness). A byte string without the `%PDF-` signature is
rejected with the header-check error by both entry points, independently of
the parser oracle. -/
theorem validation_rejects_before_parsing_witness :
    extract_text (fun _ => .ok []) (asciiBytes "hello") true true true =
      .error (.validation .missingHeader) ∧
    extract_tables (fun _ => .ok []) (fun _ => .ok []) (asciiBytes "hello") true =
      .error (.validation .missingHeader) :=
  ⟨(validation_rejects_before_parsing (asciiBytes "hello") .missingHeader
      (by decide)).1 (fun _ => .ok []) true true true,
   (validation_rejects_before_parsing (asciiBytes "hello") .missingHeader
      (by decide)).2.1 (fun _ => .ok []) (fun _ => .ok []) true⟩

/-- Claim C5. `convert_to_excel` yields a workbook with at least one sheet on
every input, and whenever the sheet-building phase fails, all partial
sheets are discarded and the workbook is the single "Error" sheet carrying
the failure description and the filename. -/
theorem convert_total_and_error_sheet (data : PyData)
    (extraction_method filename now : String) :
    convert_to_excel data extraction_method filename now ≠ [] ∧
    (∀ e, buildSheets data extraction_method filename now = .error e →
      convert_to_excel data extraction_method filename now =
        [errorSheet e filename now] ∧
      (convert_to_excel data extraction_method filename now).map Sheet.name
        = ["Error"] ∧
      (7, 1, e) ∈ (errorSheet e filename now).cells ∧
      (3, 1, "File: " ++ filename) ∈ (errorSheet e filename now).cells) := by
  constructor
  · unfold convert_to_excel
    match hb : buildSheets data extraction_method filename now with
    | .error e => simp
    | .ok sheets =>
      by_cases hs : sheets.isEmpty
      · simp [hs]
      · simpa [hs] using (by simpa using hs : sheets ≠ [])
  · intro e he
    unfold convert_to_excel
    rw [he]
    exact ⟨rfl, rfl, by simp [errorSheet], by simp [errorSheet]⟩

/-- Claim C5. (witness). "Text Extraction" mode handed a dict: the text-sheet
builder raises, partial sheets are discarded, and the returned workbook is
the single "Error" sheet with the failure description and the filename. -/
theorem convert_total_and_error_sheet_witness :
    convert_to_excel (.pdict (some (.pstr "x")) none) "Text Extraction"
        "f.pdf" "NOW" =
      [errorSheet "AttributeError: 'dict' object has no attribute 'split'"
        "f.pdf" "NOW"] ∧
    (convert_to_excel (.pdict (some (.pstr "x")) none) "Text Extraction"
        "f.pdf" "NOW").map Sheet.name = ["Error"] :=
  have h := (convert_total_and_error_sheet (.pdict (some (.pstr "x")) none)
      "Text Extraction" "f.pdf" "NOW").2
      "AttributeError: 'dict' object has no attribute 'split'" (by decide)
  ⟨h.1, h.2.1⟩

/-- Claim C6. (counterexample). Sanitizing twice is not the same as sanitizing
once: on `"ab@cd.ef1234567890"` the first pass replaces only the ten digits
(the email cannot match, the character after `.ef` being a word character),
giving `"ab@cd.ef[PHONE_REDACTED]"`; the bracket left by the replacement
creates the word boundary the email pattern needed, so a second pass
produces `"[EMAIL_REDACTED][PHONE_REDACTED]"`. -/
theorem sanitize_text_not_idempotent :
    sanitize_text (sanitize_text "ab@cd.ef1234567890" true false) true false ≠
      sanitize_text "ab@cd.ef1234567890" true false := by
  decide

/-- Claim C6. (amended). Idempotence fails in general, but the weaker half of
the claim holds: no placeholder token introduced by a substitution is
itself matched and re-replaced — each of the six placeholder tokens is a
fixed point of `sanitize_text` under every flag combination. -/
theorem placeholder_tokens_fixed (tok : String)
    (htok : tok ∈ placeholderTokens) (basic_sanitization redact_numbers : Bool) :
    sanitize_text tok basic_sanitization redact_numbers = tok := by
  fin_cases htok <;> cases basic_sanitization <;> cases redact_numbers <;> decide

/-- Claim C6. (witness). The `[ID_REDACTED]` token is a placeholder and is left
unchanged by a full sanitization pass. -/
theorem placeholder_tokens_fixed_witness :
    "[ID_REDACTED]" ∈ placeholderTokens ∧
    sanitize_text "[ID_REDACTED]" true true = "[ID_REDACTED]" :=
  ⟨by decide, placeholder_tokens_fixed "[ID_REDACTED]" (by decide) true true⟩

/-- The code's merge step coincides with the amended spec rule (reach-100
blocking) on every state and line. -/
theorem mergeStep_eq_amended (st : MergeState) (l : String) :
    mergeStep st l = specMergeStepAmended st l := by
  unfold mergeStep specMergeStepAmended
  by_cases h1 : (pyStrip l).isEmpty <;>
    by_cases h2 : st.2.isEmpty <;>
      by_cases h3 : headIsUpper (pyStrip l) <;>
        by_cases h4 : st.2.length < 100 <;>
          simp [h1, h2, h3, h4]

/-- Claim C7. (counterexample). With the accumulated paragraph at exactly 100
characters — which does not "exceed 100" — and a lowercase next line, the
claimed rule merges, but the code starts a new paragraph (its guard is
`len(current_block) < 100`): on the page `hundredA ++ "\nb"` the code keeps
two paragraphs while the claimed rule yields one. -/
theorem merge_blocks_claimed_rule_fails :
    merge_text_blocks_fn (hundredA ++ "\nb") ≠
      specMergeBlocksClaimed (hundredA ++ "\nb") ∧
    merge_text_blocks_fn (hundredA ++ "\nb") = hundredA ++ "\nb" ∧
    specMergeBlocksClaimed (hundredA ++ "\nb") = hundredA ++ " b" := by
  refine ⟨by decide, by decide, by decide⟩

/-- Claim C7. (amended). The block-merging branch of `extract_text` implements
exactly the amended heuristic: consecutive non-blank lines are merged into
one paragraph unless the accumulated paragraph has already reached 100
characters or the next line starts with an uppercase letter, and a blank
line always terminates the current paragraph. -/
theorem merge_blocks_amended_rule (page_text : String) :
    merge_text_blocks_fn page_text = specMergeBlocksAmended page_text := by
  unfold merge_text_blocks_fn specMergeBlocksAmended
  rw [show mergeStep = specMergeStepAmended from
    funext fun st => funext fun l => mergeStep_eq_amended st l]

/-! ### Row-length helper lemmas (shared by the table claims) -/

theorem foldlMax_le {α : Type} (l : List (List α)) (acc : Nat) :
    acc ≤ l.foldl (fun a r => max a r.length) acc := by
  induction l generalizing acc with
  | nil => simp
  | cons x xs ih =>
      rw [List.foldl_cons]
      exact le_trans (le_max_left _ _) (ih _)

theorem mem_le_foldlMax {α : Type} (l : List (List α)) (acc : Nat)
    (r : List α) (hr : r ∈ l) :
    r.length ≤ l.foldl (fun a s => max a s.length) acc := by
  induction l generalizing acc with
  | nil => cases hr
  | cons x xs ih =>
      rw [List.foldl_cons]
      rcases List.mem_cons.mp hr with h | h
      · subst h
        exact le_trans (le_max_right _ _) (foldlMax_le xs _)
      · exact ih _ h

theorem pdDataFrameRows_row_length (data : List (List (Option String)))
    (ncols : Nat) (rows : List (List PCell))
    (h : pdDataFrameRows data ncols = .ok rows) :
    ∀ r ∈ rows, r.length = ncols := by
  unfold pdDataFrameRows at h
  by_cases hd : data.isEmpty
  · rw [if_pos hd] at h
    cases h
    intro r hr
    cases hr
  · rw [if_neg hd] at h
    by_cases hc : (ncols != data.foldl (fun acc r => max acc r.length) 0) = true
    · rw [if_pos hc] at h
      cases h
    · rw [if_neg hc] at h
      have hnc : ncols = data.foldl (fun acc r => max acc r.length) 0 := by
        simpa using hc
      have hrows := Except.ok.inj h
      intro r hr
      rw [← hrows] at hr
      rcases List.mem_map.mp hr with ⟨r0, hr0, rfl⟩
      have hle : r0.length ≤ data.foldl (fun acc r => max acc r.length) 0 :=
        mem_le_foldlMax data 0 r0 hr0
      simp only [List.length_append, List.length_map, List.length_replicate]
      omega

theorem cleanColumns_length (header : List (Option String)) :
    (cleanColumns header).length = header.length := by
  simp [cleanColumns]

theorem cleanedRows_row_length (remove_empty_rows : Bool)
    (rows0 : List (List PCell)) (n : Nat) (h0 : ∀ r ∈ rows0, r.length = n) :
    ∀ r ∈ cleanedRows remove_empty_rows rows0, r.length = n := by
  intro r hr
  unfold cleanedRows at hr
  by_cases hrer : remove_empty_rows
  · rw [if_pos hrer] at hr
    rcases List.mem_map.mp hr with ⟨r0, hr0, rfl⟩
    rw [List.length_map]
    exact h0 r0 (List.mem_of_mem_filter (List.mem_of_mem_filter hr0))
  · rw [if_neg hrer] at hr
    rcases List.mem_map.mp hr with ⟨r0, hr0, rfl⟩
    rw [List.length_map]
    exact h0 r0 hr0

theorem padRow_length (m : Nat) (r : List String) (hr : r.length ≤ m) :
    (padRow m r).length = m := by
  simp only [padRow, List.length_append, List.length_replicate]
  omega

/-- What the fallback parser returns, when it returns a table: the candidate
rows padded to the longest row's length, the first padded row serving as
header. -/
theorem fallbackParsePage_eq (page_text : String) (h : List String)
    (rows : List (List String))
    (hp : fallbackParsePage page_text = some (h, rows)) :
    h :: rows =
      (candidateRows page_text).map
        (padRow (longestRowLen (candidateRows page_text))) := by
  unfold fallbackParsePage at hp
  by_cases h2 : 2 ≤ (candidateLines page_text).length
  · rw [if_pos h2] at hp
    by_cases hr :
        (!(candidateRows page_text).isEmpty &&
          1 < (candidateRows page_text).length) = true
    · rw [if_pos hr] at hp
      cases hpad : (candidateRows page_text).map
          (padRow (longestRowLen (candidateRows page_text))) with
      | nil => rw [hpad] at hp; cases hp
      | cons h0 tl =>
          rw [hpad] at hp
          cases hp
          rfl
    · rw [if_neg hr] at hp
      cases hp
  · rw [if_neg h2] at hp
    cases hp

/-- Claim C2. (counterexample). On a raw table whose second data row is one
cell short, the primary path pads with pandas NaN, which stringifies to
`"nan"` — not the empty string the claim announces: the produced table's
padded cell is `"nan"`, and the table the claim predicts (padding `""`) is
not the one produced. -/
theorem primary_padding_is_nan_not_empty :
    processRawTable 0 0 true shortRowRawTable =
      .ok (some ⟨["h1", "h2"], [["a", "b"], ["c", "nan"]], 1, 1⟩) ∧
    processRawTable 0 0 true shortRowRawTable ≠
      .ok (some ⟨["h1", "h2"], [["a", "b"], ["c", ""]], 1, 1⟩) := by
  refine ⟨by decide, by decide⟩

/-- Claim C2. (amended). Every table either extraction path produces is
rectangular: each data row's length equals the header's length.  (Shorter
raw rows are padded during construction — with the string `"nan"` on the
primary path and with the empty string on the fallback path.) -/
theorem tables_rows_match_header :
    (∀ (page_num table_num : Nat) (rer : Bool) (t : RawTable) (pt : PTable),
        processRawTable page_num table_num rer t = .ok (some pt) →
        ∀ r ∈ pt.rows, r.length = pt.header.length) ∧
    (∀ (page_text : String) (h : List String) (rows : List (List String)),
        fallbackParsePage page_text = some (h, rows) →
        ∀ r ∈ h :: rows, r.length = h.length) := by
  constructor
  · intro pn tn rer t pt hp r hr
    cases t with
    | nil => simp [processRawTable] at hp
    | cons t0 rest =>
      simp only [processRawTable] at hp
      split at hp
      · cases hp
      · split at hp
        · cases hp
        · cases hp
          rename_i rows0 hdf hemp
          rw [cleanColumns_length]
          exact cleanedRows_row_length rer rows0 _
            (pdDataFrameRows_row_length rest _ rows0 hdf) r hr
  · intro ptext h rows hp r hr
    have he := fallbackParsePage_eq ptext h rows hp
    have hlenall : ∀ x ∈ h :: rows, x.length = longestRowLen (candidateRows ptext) := by
      intro x hx
      rw [he] at hx
      rcases List.mem_map.mp hx with ⟨r0, hr0, rfl⟩
      exact padRow_length _ r0
        (by unfold longestRowLen; exact mem_le_foldlMax _ 0 r0 hr0)
    rw [hlenall r hr, hlenall h (List.mem_cons_self _ _)]

/-- Claim C2. (witness). The amended invariant at concrete inputs: the padded
primary-path row `["c", "nan"]` has the header's length 2, and the fallback
row `["y", "2"]` has its header's length 2. -/
theorem tables_rows_match_header_witness :
    (["c", "nan"] : List String).length = (["h1", "h2"] : List String).length ∧
    (["y", "2"] : List String).length = (["x", "1"] : List String).length :=
  ⟨tables_rows_match_header.1 0 0 true shortRowRawTable
      ⟨["h1", "h2"], [["a", "b"], ["c", "nan"]], 1, 1⟩ (by decide)
      ["c", "nan"] (by decide),
   tables_rows_match_header.2 "x  1\ny  2" ["x", "1"] [["y", "2"]]
      (by decide) ["y", "2"] (by decide)⟩

/-- Claim C8. (counterexample). Lines qualify as candidates through their
commas, yet the splitter never splits on a comma: with no tab, no pipe and
no multi-space run the whole line survives as a single cell, the row is
discarded, and no table at all is produced — where the claim predicts a
comma-split table. -/
theorem fallback_never_splits_on_comma :
    lineIsCandidate "a,1 b,2" = true ∧
    splitLine "a,1 b,2" = ["a,1 b,2"] ∧
    pySplitOnChar ',' "a,1 b,2" ≠ ["a,1 b,2"] ∧
    fallbackParsePage "a,1 b,2\nc,3 d,4" = none := by
  refine ⟨by decide, by decide, by decide, by decide⟩

/-- Claim C8. (amended). The fallback splitter uses the delimiter priority
tab > pipe > multi-space run — a comma is only a candidacy hint, never a
split delimiter — and any produced table is the candidate rows padded to
the longest row's length, its first row serving as header. -/
theorem fallback_split_priority_and_padding :
    (∀ line : String, splitLine line = specSplitLineAmended line) ∧
    (∀ (page_text : String) (h : List String) (rows : List (List String)),
        fallbackParsePage page_text = some (h, rows) →
        h :: rows =
          (candidateRows page_text).map
            (padRow (longestRowLen (candidateRows page_text)))) := by
  constructor
  · intro line
    unfold splitLine specSplitLineAmended strongestDelim splitByDelim
    by_cases h1 : strHasSub line "\t" <;> by_cases h2 : strHasSub line "|" <;>
      simp [h1, h2]
  · exact fallbackParsePage_eq

/-- Claim C8. (witness). The amended splitting rule and padding shape at
concrete inputs: a tab-containing line splits on tabs even though it also
contains a pipe, and the two-line page `"x  1\ny  2"` yields the padded
table with header `["x", "1"]`. -/
theorem fallback_split_priority_and_padding_witness :
    splitLine "a | b\tc" = specSplitLineAmended "a | b\tc" ∧
    (["x", "1"] :: [["y", "2"]] =
      (candidateRows "x  1\ny  2").map
        (padRow (longestRowLen (candidateRows "x  1\ny  2")))) :=
  ⟨fallback_split_priority_and_padding.1 "a | b\tc",
   fallback_split_priority_and_padding.2 "x  1\ny  2" ["x", "1"] [["y", "2"]]
      (by decide)⟩

end PdfExcelXlator
